import Mathlib

/-!
Shallow embedding of the stealth proxy system (`stealth_proxy.py`).

Timestamps and scores are modelled as rationals (the Python code uses
floats; all the arithmetic involved is exact small-denominator
arithmetic).  Each Python method that reads the wall clock
(`time.time()`) takes the current time `now : ℚ` as an explicit
argument.  Mutable `Proxy` objects shared between the pool's list and
the sticky map are modelled by a store (`List Proxy`) addressed by
numeric identifiers, so object identity and aliasing are preserved.
-/

/- Constants from stealth_proxy.py lines 102-113. -/

def INITIAL_PROXY_SCORE : ℚ := 1/2

def MAX_SCORE_DECAY : ℚ := 1/5

def SCORE_DECAY_RATE : ℚ := 1/20

def DECAY_HOURS_DIVISOR : ℚ := 3600

def SOFT_FAIL_PENALTY_SECONDS : ℚ := 20

def HARD_FAIL_PENALTY_SECONDS : ℚ := 90

def MAX_PENALTY_MULTIPLIER : ℕ := 3

def FAILURE_THRESHOLD : ℕ := 3

def COOLDOWN_REDUCTION_SUCCESS : ℚ := 5

/-- The `Proxy` class (stealth_proxy.py lines 171-233): host, port,
protocol, accounting counters and timestamps.  `created_at` is the
construction time. -/
structure Proxy where
  host : String
  port : Int
  proto : String
  country : Option String
  source : String
  success : ℕ
  fail : ℕ
  last_used : ℚ
  cooldown_until : ℚ
  created_at : ℚ
deriving Repr, DecidableEq

instance : Inhabited Proxy :=
  ⟨{ host := "", port := 0, proto := "", country := none, source := "",
     success := 0, fail := 0, last_used := 0, cooldown_until := 0, created_at := 0 }⟩

/-- `Proxy.score` (lines 199-208): success ratio (0.5 with no history)
minus an age-based decay, clamped to [0,1]. -/
def Proxy.score (p : Proxy) (now : ℚ) : ℚ :=
  let total := p.success + p.fail
  let base : ℚ := if 0 < total then (p.success : ℚ) / (total : ℚ) else INITIAL_PROXY_SCORE
  let age := max 1 (now - p.created_at)
  let decay := min MAX_SCORE_DECAY (age / DECAY_HOURS_DIVISOR * SCORE_DECAY_RATE)
  max 0 (min 1 (base - decay))

/-- `Proxy.mark_success` (lines 210-214). -/
def Proxy.mark_success (p : Proxy) (now : ℚ) : Proxy :=
  { p with success := p.success + 1, last_used := now,
           cooldown_until := max (p.cooldown_until - COOLDOWN_REDUCTION_SUCCESS) now }

/-- `Proxy.mark_fail` (lines 216-224): graduated cooldown penalty.
`fail // FAILURE_THRESHOLD` is Python floor division on a nonnegative
integer, i.e. natural-number division. -/
def Proxy.mark_fail (p : Proxy) (soft : Bool) (now : ℚ) : Proxy :=
  let f := p.fail + 1
  let base_penalty : ℚ := if soft then SOFT_FAIL_PENALTY_SECONDS else HARD_FAIL_PENALTY_SECONDS
  let scaled := base_penalty * ((min MAX_PENALTY_MULTIPLIER (1 + f / FAILURE_THRESHOLD) : ℕ) : ℚ)
  { p with fail := f, last_used := now,
           cooldown_until := max p.cooldown_until (now + scaled) }

/-- `Proxy.is_available` (lines 226-228): `time.time() >= cooldown_until`. -/
def Proxy.is_available (p : Proxy) (now : ℚ) : Bool :=
  decide (p.cooldown_until ≤ now)

/-- Pool state (`ProxyPool.__init__`, lines 242-254).  `store` is the
heap of Proxy objects; `proxies` is the pool's main list `_proxies` and
`sticky` is `_sticky_map`, both holding store indices so that both
views alias the same mutable objects. -/
structure PoolState where
  store : List Proxy
  proxies : List ℕ
  cursor : ℕ
  sticky : List (String × ℕ)
  max_size : ℕ
  min_score : ℚ
  eviction_threshold : ℚ
deriving Repr

/-- Dereference a proxy id in the store. -/
def getP (s : PoolState) (i : ℕ) : Proxy :=
  s.store.getD i default

/-- Overwrite a proxy id in the store (mutation of the shared object). -/
def setP (s : PoolState) (i : ℕ) (p : Proxy) : PoolState :=
  { s with store := s.store.set i p }

/-- Python dict lookup `self._sticky_map.get(domain)`. -/
def stickyLookup : List (String × ℕ) → String → Option ℕ
  | [], _ => none
  | e :: rest, d => if e.1 == d then some e.2 else stickyLookup rest d

/-- Python dict assignment `self._sticky_map[domain] = chosen`. -/
def stickySet : List (String × ℕ) → String → ℕ → List (String × ℕ)
  | [], d, i => [(d, i)]
  | e :: rest, d, i => if e.1 == d then (d, i) :: rest else e :: stickySet rest d i

/-- Append a proxy, allocating the next store index (the body of
`add_proxy` / the loop body of `bulk_add` once admitted). -/
def rawAppend (s : PoolState) (p : Proxy) : PoolState :=
  { s with store := s.store ++ [p], proxies := s.proxies ++ [s.store.length] }

/-- `ProxyPool.add_proxy` (lines 256-260): append while under capacity. -/
def add_proxy (s : PoolState) (p : Proxy) : PoolState :=
  if s.proxies.length < s.max_size then rawAppend s p else s

/-- `ProxyPool.bulk_add` (lines 262-268): iterate, breaking as soon as
the pool is at capacity. -/
def bulk_add : PoolState → List Proxy → PoolState
  | s, [] => s
  | s, p :: ps => if s.max_size ≤ s.proxies.length then s else bulk_add (rawAppend s p) ps

/-- Retention predicate of `_evict_bad` (lines 270-280): keep a proxy
iff its score is at least the eviction threshold or it has fewer than 5
recorded attempts. -/
def evictKeep (s : PoolState) (now : ℚ) (i : ℕ) : Bool :=
  decide (s.eviction_threshold ≤ (getP s i).score now) || decide ((getP s i).success + (getP s i).fail < 5)

/-- `ProxyPool._evict_bad` (lines 270-280): filter the main list.  The
sticky map is not touched. -/
def evictBad (s : PoolState) (now : ℚ) : PoolState :=
  { s with proxies := s.proxies.filter (evictKeep s now) }

/-- Candidate filter of `get_next` step 3: available and meeting the
minimum score. -/
def healthyB (s : PoolState) (now : ℚ) (i : ℕ) : Bool :=
  (getP s i).is_available now && decide (s.min_score ≤ (getP s i).score now)

/-- The sticky-preference branch of `get_next` (lines 291-295): if
sticky is enabled and the domain is truthy (a nonempty string) and the
mapped proxy is available with sufficient score, it is returned.  A
`none` result means control falls through to the candidate scan. -/
def stickyChoice (s : PoolState) (domain : Option String) (enable_sticky : Bool) (now : ℚ) :
    Option ℕ :=
  match domain with
  | some d =>
    if enable_sticky && !d.isEmpty then
      match stickyLookup s.sticky d with
      | some i =>
        if (getP s i).is_available now && decide (s.min_score ≤ (getP s i).score now)
        then some i else none
      | none => none
    else none
  | none => none

/-- `get_next` after the initial eviction (lines 291-316): sticky
preference, candidate scan with fallback, round-robin cursor advance,
sticky-map update. -/
def getNextCore (s : PoolState) (domain : Option String) (enable_sticky : Bool) (now : ℚ) :
    Option ℕ × PoolState :=
  match stickyChoice s domain enable_sticky now with
  | some i => (some i, s)
  | none =>
    let cands0 := s.proxies.filter (healthyB s now)
    let cands := if cands0.isEmpty then s.proxies.filter (fun i => (getP s i).is_available now)
                 else cands0
    if cands.isEmpty then (none, s)
    else
      let cur := (s.cursor + 1) % cands.length
      let chosen := cands.getD cur 0
      let sticky' :=
        match domain with
        | some d => if enable_sticky && !d.isEmpty then stickySet s.sticky d chosen else s.sticky
        | none => s.sticky
      (some chosen, { s with cursor := cur, sticky := sticky' })

/-- `ProxyPool.get_next` (lines 282-316).  Returns the chosen proxy id
(`None` when no proxy is usable) together with the updated pool state.
`domain = some d` with `d` nonempty corresponds to a truthy `domain`
argument in Python. -/
def get_next (s0 : PoolState) (domain : Option String) (enable_sticky : Bool) (now : ℚ) :
    Option ℕ × PoolState :=
  getNextCore (evictBad s0 now) domain enable_sticky now

/-- `ProxyPool.mark_result` (lines 318-332): no-op on `None`, otherwise
route to `mark_success` / `mark_fail` on the shared object. -/
def mark_result (s : PoolState) (pr : Option ℕ) (success : Bool) (soft_fail : Bool) (now : ℚ) :
    PoolState :=
  match pr with
  | none => s
  | some i =>
    if success then setP s i ((getP s i).mark_success now)
    else setP s i ((getP s i).mark_fail soft_fail now)

/-- A provider API record (`integrate_provider_proxies` docstring, lines
435-446).  `ip`/`port` are optional because a malformed record may lack
them (a missing key raises `KeyError` inside the `try`, skipping the
record). -/
structure ProviderRecord where
  ip : Option String
  port : Option Int
  protocol : Option String
  country : Option String
  source : Option String
deriving Repr, DecidableEq

def DEFAULT_PROTOCOL : String := "http"

def DEFAULT_SOURCE : String := "provider"

/-- The Proxy constructed from a well-formed record (lines 450-458,
together with `Proxy.__init__`, lines 174-191): defaults applied via
`.get`, protocol lower-cased by the constructor, counters zeroed,
`created_at` stamped with the current time. -/
def recordToProxy (now : ℚ) (h : String) (pt : Int) (r : ProviderRecord) : Proxy :=
  { host := h, port := pt, proto := (r.protocol.getD DEFAULT_PROTOCOL).toLower,
    country := r.country, source := r.source.getD DEFAULT_SOURCE,
    success := 0, fail := 0, last_used := 0, cooldown_until := 0, created_at := now }

/-- `integrate_provider_proxies` (lines 432-461): convert each record
inside a `try`; any record missing `ip` or `port` raises and is skipped
by the `except: continue`. -/
def integrate_provider_proxies (now : ℚ) : List ProviderRecord → List Proxy
  | [] => []
  | r :: rs =>
    match r.ip, r.port with
    | some h, some pt => recordToProxy now h pt r :: integrate_provider_proxies now rs
    | some _, none => integrate_provider_proxies now rs
    | none, _ => integrate_provider_proxies now rs

/-- A record is well-formed when it has both an address and a port
(spec section 6 schema). -/
def wellFormed (r : ProviderRecord) : Bool :=
  r.ip.isSome && r.port.isSome

/-- `StealthSession` construction state (`__init__`, lines 470-482).
The per-domain pacing map only feeds sleep decisions; sleeps are
represented by the explicit time trace fed to `request`. -/
structure StealthSession where
  pool : PoolState
  timeout : Int
  max_retries : Int
  delay_min : ℚ
  delay_max : ℚ
deriving Repr

/-- `StealthSession.__init__` (lines 470-482): plain attribute
assignment.  The body performs no validation, so no configuration is
ever rejected; the `Except` result (for raised errors) is always `ok`. -/
def StealthSession.init (pool : PoolState) (base_timeout : Int)
    (max_retries_per_request : Int) (dmin dmax : ℚ) : Except String StealthSession :=
  Except.ok { pool := pool, timeout := base_timeout, max_retries := max_retries_per_request,
              delay_min := dmin, delay_max := dmax }

/-- Number of iterations of `for attempt in range(1, self.max_retries + 1)`
(lines 592-604): `max 0 max_retries`. -/
def attemptsBudget (mr : Int) : ℕ :=
  mr.toNat

/-- Outcome of the underlying `requests.request` call in one attempt:
an HTTP status with a flag telling whether the body matches a block
pattern, a timeout/connection error, or another request exception. -/
inductive NetOutcome where
  | status : ℕ → Bool → NetOutcome
  | connError : NetOutcome
  | otherError : NetOutcome
deriving Repr, DecidableEq

/-- `StealthSession._request_once` (lines 508-583): select a proxy
(sticky enabled, domain = netloc of the url), execute, classify, and
report to the pool.  Returns (response status, proxy used, new pool
state); response `none` encodes a failed attempt. -/
def request_once (s : PoolState) (d : String) (o : NetOutcome) (now : ℚ) :
    Option ℕ × Option ℕ × PoolState :=
  match get_next s (some d) true now with
  | (none, s1) => (none, none, s1)
  | (some i, s1) =>
    match o with
    | NetOutcome.status c blocked =>
      if 200 ≤ c ∧ c < 300 then
        if blocked then (none, some i, mark_result s1 (some i) false true now)
        else (some c, some i, mark_result s1 (some i) true false now)
      else if c = 403 ∨ c = 429 ∨ c = 503 then
        (none, some i, mark_result s1 (some i) false true now)
      else if 300 ≤ c ∧ c < 400 then
        (some c, some i, mark_result s1 (some i) true false now)
      else
        (none, some i, mark_result s1 (some i) false true now)
    | NetOutcome.connError => (none, some i, mark_result s1 (some i) false true now)
    | NetOutcome.otherError => (none, some i, mark_result s1 (some i) false false now)

/-- The retry loop of `StealthSession.request` over an explicit
per-attempt trace of (time, network outcome): run `_request_once` per
iteration, return on the first response, give up when the trace (the
attempt budget) is exhausted.  Also counts the attempts performed. -/
def requestLoop : PoolState → String → List (ℚ × NetOutcome) → Option ℕ × PoolState × ℕ
  | s, _, [] => (none, s, 0)
  | s, d, (t, o) :: rest =>
    match request_once s d o t with
    | (some r, _, s1) => (some r, s1, 1)
    | (none, _, s1) =>
      match requestLoop s1 d rest with
      | (r, s2, n) => (r, s2, n + 1)

/-- `StealthSession.request` (lines 585-607): `max 0 max_retries`
attempts driven by the time/outcome trace; returns an absent response
when all attempts fail. -/
def StealthSession.request (sess : StealthSession) (d : String)
    (times : ℕ → ℚ) (outs : ℕ → NetOutcome) : Option ℕ × PoolState × ℕ :=
  requestLoop sess.pool d ((List.range (attemptsBudget sess.max_retries)).map
    (fun a => (times a, outs a)))

/-!
Theorems.
-/

lemma score_base_le_one (p : Proxy) :
    (if 0 < p.success + p.fail then (p.success : ℚ) / ((p.success + p.fail : ℕ) : ℚ)
     else INITIAL_PROXY_SCORE) ≤ 1 := by
  split_ifs with h
  · rw [div_le_one (by exact_mod_cast h)]
    exact_mod_cast Nat.le_add_right p.success p.fail
  · rw [INITIAL_PROXY_SCORE]; norm_num

lemma score_decay_pos (p : Proxy) (now : ℚ) :
    0 < min MAX_SCORE_DECAY (max 1 (now - p.created_at) / DECAY_HOURS_DIVISOR * SCORE_DECAY_RATE) := by
  apply lt_min
  · rw [MAX_SCORE_DECAY]; norm_num
  · have hage : (0:ℚ) < max 1 (now - p.created_at) :=
      lt_of_lt_of_le one_pos (le_max_left 1 _)
    rw [DECAY_HOURS_DIVISOR, SCORE_DECAY_RATE]
    positivity

/-- Claim C7: for every Proxy state and every observation time, the
computed score lies in the closed interval [0, 1]. -/
theorem score_in_unit_interval (p : Proxy) (now : ℚ) :
    0 ≤ p.score now ∧ p.score now ≤ 1 := by
  simp only [Proxy.score]
  exact ⟨le_max_left 0 _, max_le (by norm_num) (min_le_left 1 _)⟩

/-- Claim C10: the score is always strictly below 1: the age used for
decay is clamped to at least one second, so a strictly positive decay
is subtracted from a success ratio that never exceeds 1. -/
theorem score_lt_one (p : Proxy) (now : ℚ) : p.score now < 1 := by
  simp only [Proxy.score]
  apply max_lt one_pos
  apply lt_of_le_of_lt (min_le_right 1 _)
  have h1 := score_base_le_one p
  have h2 := score_decay_pos p now
  linarith

/-- Claim C2 counterexample input: a proxy whose cooldown lies in the
past (the initial state: `cooldown_until = 0.0`). -/
def coldProxy : Proxy :=
  { host := "h", port := 8000, proto := "http", country := none, source := "public",
    success := 0, fail := 0, last_used := 0, cooldown_until := 0, created_at := 0 }

/-- Claim C2 is false as stated: on a proxy whose `cooldown_until` (0)
is in the past, `mark_success` at time 100 sets
`cooldown_until = max(0 - 5, 100) = 100 > 0`, an increase. -/
theorem mark_success_can_raise_cooldown :
    ¬ ((coldProxy.mark_success 100).cooldown_until ≤ coldProxy.cooldown_until) := by
  simp only [Proxy.mark_success, coldProxy, COOLDOWN_REDUCTION_SUCCESS]
  rw [max_eq_right (by norm_num)]
  norm_num

/-- Claim C2 (amended): whenever the cooldown is still active
(`now ≤ cooldown_until`), `mark_success` never increases
`cooldown_until`; the new value is `max (old - 5) now ≤ old`. -/
theorem mark_success_cooldown_le (p : Proxy) (now : ℚ) (h : now ≤ p.cooldown_until) :
    (p.mark_success now).cooldown_until ≤ p.cooldown_until := by
  simp only [Proxy.mark_success]
  exact max_le (sub_le_self _ (by rw [COOLDOWN_REDUCTION_SUCCESS]; norm_num)) h

/-- Claim C2 witness input: a proxy in an active cooldown. -/
def hotProxy : Proxy :=
  { host := "h", port := 8000, proto := "http", country := none, source := "public",
    success := 2, fail := 1, last_used := 40, cooldown_until := 100, created_at := 0 }

/-- Claim C2 witness: at time 50 the amended statement applies to
`hotProxy` (cooldown 100 is active) and its cooldown does not grow. -/
theorem mark_success_cooldown_le_witness :
    (hotProxy.mark_success 50).cooldown_until ≤ hotProxy.cooldown_until :=
  mark_success_cooldown_le hotProxy 50 (by rw [hotProxy]; norm_num)

/-- Claim C9: eviction removes a pool entry iff its score is below the
eviction threshold and it has at least 5 recorded attempts; with fewer
than 5 attempts it is retained regardless of score. -/
theorem evicted_iff (s : PoolState) (now : ℚ) (i : ℕ) (h : i ∈ s.proxies) :
    i ∉ (evictBad s now).proxies ↔
      ((getP s i).score now < s.eviction_threshold ∧
       5 ≤ (getP s i).success + (getP s i).fail) := by
  simp only [evictBad, List.mem_filter, evictKeep, h, true_and, Bool.or_eq_true,
    decide_eq_true_eq, not_or, not_le, not_lt]

/-- Claim C9 witness input: a proxy with 6 recorded attempts, all
failures. -/
def wornProxy : Proxy :=
  { host := "h", port := 8000, proto := "http", country := none, source := "public",
    success := 0, fail := 6, last_used := 0, cooldown_until := 0, created_at := 0 }

/-- Claim C9 witness input: a default-parameter pool holding only
`wornProxy`. -/
def wornPool : PoolState :=
  { store := [wornProxy], proxies := [0], cursor := 0, sticky := [],
    max_size := 200, min_score := 1/4, eviction_threshold := 1/20 }

/-- Claim C9 witness: the eviction characterisation instantiated on
`wornPool`. -/
theorem evicted_iff_witness :
    0 ∉ (evictBad wornPool 0).proxies ↔
      ((getP wornPool 0).score 0 < wornPool.eviction_threshold ∧
       5 ≤ (getP wornPool 0).success + (getP wornPool 0).fail) :=
  evicted_iff wornPool 0 0 (by decide)

/-- A pool operation admitted by claim C8: `add_proxy` or `bulk_add`. -/
inductive AddOp where
  | single : Proxy → AddOp
  | bulk : List Proxy → AddOp

def applyAdd (s : PoolState) : AddOp → PoolState
  | AddOp.single p => add_proxy s p
  | AddOp.bulk ps => bulk_add s ps

def applyAdds : PoolState → List AddOp → PoolState
  | s, [] => s
  | s, op :: ops => applyAdds (applyAdd s op) ops

/-- A fresh pool as built by `ProxyPool.__init__` with the given
`max_size` and the default thresholds (lines 242-254). -/
def emptyPool (cap : ℕ) : PoolState :=
  { store := [], proxies := [], cursor := 0, sticky := [],
    max_size := cap, min_score := 1/4, eviction_threshold := 1/20 }

lemma add_proxy_bound (s : PoolState) (p : Proxy) (h : s.proxies.length ≤ s.max_size) :
    (add_proxy s p).proxies.length ≤ s.max_size ∧ (add_proxy s p).max_size = s.max_size := by
  unfold add_proxy
  split_ifs with hlt
  · refine ⟨?_, rfl⟩
    simp only [rawAppend, List.length_append, List.length_singleton]
    omega
  · exact ⟨h, rfl⟩

lemma bulk_add_bound (ps : List Proxy) :
    ∀ s : PoolState, s.proxies.length ≤ s.max_size →
      (bulk_add s ps).proxies.length ≤ s.max_size ∧ (bulk_add s ps).max_size = s.max_size := by
  induction ps with
  | nil => exact fun s h => ⟨h, rfl⟩
  | cons p ps ih =>
    intro s h
    unfold bulk_add
    split_ifs with hge
    · exact ⟨h, rfl⟩
    · have hlen : (rawAppend s p).proxies.length ≤ (rawAppend s p).max_size := by
        simp only [rawAppend, List.length_append, List.length_singleton]
        omega
      have := ih (rawAppend s p) hlen
      simp only [rawAppend] at this
      exact this

lemma applyAdds_bound (ops : List AddOp) :
    ∀ s : PoolState, s.proxies.length ≤ s.max_size →
      (applyAdds s ops).proxies.length ≤ s.max_size ∧ (applyAdds s ops).max_size = s.max_size := by
  induction ops with
  | nil => exact fun s h => ⟨h, rfl⟩
  | cons op ops ih =>
    intro s h
    have hstep : (applyAdd s op).proxies.length ≤ s.max_size ∧ (applyAdd s op).max_size = s.max_size := by
      cases op with
      | single p => exact add_proxy_bound s p h
      | bulk ps => exact bulk_add_bound ps s h
    have := ih (applyAdd s op) (by rw [hstep.2]; exact hstep.1)
    rw [hstep.2] at this
    exact this

/-- Claim C8: the pool list never exceeds `max_size` under any sequence
of `add_proxy` / `bulk_add` operations; a pool of capacity 3 bulk-loaded
with 5 entries retains exactly 3. -/
theorem pool_capacity (s : PoolState) (ops : List AddOp) (h : s.proxies.length ≤ s.max_size) :
    (applyAdds s ops).proxies.length ≤ s.max_size ∧
    (bulk_add (emptyPool 3) (List.replicate 5 default)).proxies.length = 3 :=
  ⟨(applyAdds_bound ops s h).1, by decide⟩

/-- Claim C8 witness: bulk-loading 5 entries into an empty capacity-3
pool via the operation language. -/
theorem pool_capacity_witness :
    (applyAdds (emptyPool 3) [AddOp.bulk (List.replicate 5 default)]).proxies.length ≤
      (emptyPool 3).max_size ∧
    (bulk_add (emptyPool 3) (List.replicate 5 default)).proxies.length = 3 :=
  pool_capacity (emptyPool 3) [AddOp.bulk (List.replicate 5 default)] (by decide)

def EMPTY_HOST : String := ""

/-- The Proxy a well-formed record is converted to (`getD` defaults are
irrelevant on well-formed records). -/
def recordProxyD (now : ℚ) (r : ProviderRecord) : Proxy :=
  recordToProxy now (r.ip.getD EMPTY_HOST) (r.port.getD 0) r

/-- Claim C5: the adapter converts exactly the well-formed records (those
carrying an address and a port), in order, one Proxy each; malformed
records are skipped without aborting the batch. -/
theorem integrate_exactly_well_formed (now : ℚ) (rs : List ProviderRecord) :
    integrate_provider_proxies now rs = (rs.filter wellFormed).map (recordProxyD now) ∧
    (integrate_provider_proxies now rs).length = (rs.filter wellFormed).length := by
  have h : ∀ l : List ProviderRecord,
      integrate_provider_proxies now l = (l.filter wellFormed).map (recordProxyD now) := by
    intro l
    induction l with
    | nil => rfl
    | cons r rest ih =>
      cases hip : r.ip with
      | none => simp [integrate_provider_proxies, wellFormed, hip, ih]
      | some a =>
        cases hpt : r.port with
        | none => simp [integrate_provider_proxies, wellFormed, hip, hpt, ih]
        | some b => simp [integrate_provider_proxies, wellFormed, hip, hpt, ih, recordProxyD]
  exact ⟨h rs, by rw [h rs, List.length_map]⟩

/-- Claim C6 is false as stated: `StealthSession.__init__` is plain
attribute assignment with no validation, so a configuration with
`max_retries_per_request = -3` is accepted silently (no error is
raised) and the negative value is stored verbatim. -/
theorem init_negative_retries_accepted :
    StealthSession.init (emptyPool 3) 15 (-3) 1 4 =
      Except.ok { pool := emptyPool 3, timeout := 15, max_retries := -3,
                  delay_min := 1, delay_max := 4 } := rfl

/-- Claim C6 (amended): construction never fails — any configuration,
malformed or not, is accepted silently and stored verbatim; a session
built with a negative retry count simply performs zero attempts and
returns an absent result from `request`. -/
theorem init_accepts_any_config (pool : PoolState) (bt mr : Int) (dmin dmax : ℚ)
    (d : String) (times : ℕ → ℚ) (outs : ℕ → NetOutcome) (hmr : mr < 0) :
    StealthSession.init pool bt mr dmin dmax =
      Except.ok { pool := pool, timeout := bt, max_retries := mr,
                  delay_min := dmin, delay_max := dmax } ∧
    StealthSession.request
      { pool := pool, timeout := bt, max_retries := mr, delay_min := dmin, delay_max := dmax }
      d times outs = (none, pool, 0) := by
  refine ⟨rfl, ?_⟩
  simp only [StealthSession.request, attemptsBudget]
  rw [Int.toNat_of_nonpos (le_of_lt hmr)]
  rfl

def quietDomain : String := "example.com"

/-- Claim C6 witness: the amended statement applied to a concrete
pool, configuration and request trace with `max_retries = -2`. -/
theorem init_accepts_any_config_witness :
    StealthSession.init (emptyPool 4) 10 (-2) 1 3 =
      Except.ok { pool := emptyPool 4, timeout := 10, max_retries := -2,
                  delay_min := 1, delay_max := 3 } ∧
    StealthSession.request
      { pool := emptyPool 4, timeout := 10, max_retries := -2, delay_min := 1, delay_max := 3 }
      quietDomain (fun _ => 0) (fun _ => NetOutcome.connError) = (none, emptyPool 4, 0) :=
  init_accepts_any_config (emptyPool 4) 10 (-2) 1 3 quietDomain
    (fun _ => 0) (fun _ => NetOutcome.connError) (by norm_num)

lemma stickyLookup_stickySet (m : List (String × ℕ)) (d : String) (i : ℕ) :
    stickyLookup (stickySet m d i) d = some i := by
  induction m with
  | nil => simp [stickySet, stickyLookup]
  | cons e rest ih =>
    by_cases h : (e.1 == d) = true
    · simp [stickySet, stickyLookup, h]
    · simp [stickySet, stickyLookup, h, ih]

lemma stickyChoice_some (s : PoolState) (d : String) (es : Bool) (now : ℚ) (j : ℕ)
    (h : stickyChoice s (some d) es now = some j) :
    stickyLookup s.sticky d = some j := by
  cases hl : stickyLookup s.sticky d with
  | none =>
    simp only [stickyChoice, hl] at h
    split_ifs at h
  | some k =>
    simp only [stickyChoice, hl] at h
    split_ifs at h <;> simp_all

/-- After a successful `getNextCore` call with sticky enabled and a
truthy domain, the sticky map sends the domain to the returned proxy,
and the store and min-score are unchanged. -/
lemma getNextCore_sticky_after (s : PoolState) (d : String) (now : ℚ) (i : ℕ) (s' : PoolState)
    (hd : d.isEmpty = false)
    (h : getNextCore s (some d) true now = (some i, s')) :
    stickyLookup s'.sticky d = some i ∧ s'.store = s.store ∧ s'.min_score = s.min_score := by
  simp only [getNextCore] at h
  cases hsc : stickyChoice s (some d) true now with
  | some j =>
    rw [hsc] at h
    injection h with ha hb
    injection ha with ha'
    subst ha'
    subst hb
    exact ⟨stickyChoice_some s d true now j hsc, rfl, rfl⟩
  | none =>
    rw [hsc] at h
    simp only [hd, Bool.not_false, Bool.and_self, if_true] at h
    split_ifs at h
    · exact absurd (congrArg Prod.fst h) (by simp)
    · injection h with ha hb
      injection ha with ha'
      subst ha'
      subst hb
      exact ⟨stickyLookup_stickySet s.sticky d _, rfl, rfl⟩
    · injection h with ha hb
      injection ha with ha'
      subst ha'
      subst hb
      exact ⟨stickyLookup_stickySet s.sticky d _, rfl, rfl⟩

/-- Claim C4 (amended): if `get_next(domain, sticky)` returns a proxy
that (still) is available and meets the pool's minimum score, an
immediately repeated call for the same domain returns that identical
proxy via the sticky branch.  (As stated the claim is false: when the
first call served a below-minimum-score proxy through the
no-healthy-candidates fallback, the sticky branch rejects it and the
round-robin may yield a different proxy — see the counterexample.) -/
theorem sticky_repeat (s : PoolState) (d : String) (now : ℚ) (i : ℕ) (s' : PoolState)
    (hd : d.isEmpty = false)
    (h1 : get_next s (some d) true now = (some i, s'))
    (hav : (getP s' i).is_available now = true)
    (hsc : s'.min_score ≤ (getP s' i).score now) :
    (get_next s' (some d) true now).1 = some i := by
  have h1' : getNextCore (evictBad s now) (some d) true now = (some i, s') := h1
  obtain ⟨hl, _, _⟩ := getNextCore_sticky_after (evictBad s now) d now i s' hd h1'
  have hE : (evictBad s' now).sticky = s'.sticky := rfl
  have hgp : getP (evictBad s' now) i = getP s' i := rfl
  have hEm : (evictBad s' now).min_score = s'.min_score := rfl
  have hchoice : stickyChoice (evictBad s' now) (some d) true now = some i := by
    simp only [stickyChoice, hE, hl, hd, Bool.not_false, Bool.and_self, if_true, hgp, hEm,
      hav, hsc, decide_eq_true_eq, Bool.true_and, decide_True, if_pos]
  show (getNextCore (evictBad s' now) (some d) true now).1 = some i
  simp only [getNextCore, hchoice]

/-- Claim C4 counterexample input: a proxy that is available but has 4
recorded failures out of 4 attempts, so its score (0) is below the
default minimum score (0.25) while its attempt count keeps it safe from
eviction. -/
def dimProxy : Proxy :=
  { host := "a", port := 1, proto := "http", country := none, source := "public",
    success := 0, fail := 4, last_used := 0, cooldown_until := 0, created_at := 0 }

def fallbackDomain : String := "shop.example"

/-- Claim C4 counterexample input: a pool with two available
below-minimum-score proxies, forcing `get_next` into the relaxed
fallback path. -/
def dimPool : PoolState :=
  { store := [dimProxy, dimProxy], proxies := [0, 1], cursor := 0, sticky := [],
    max_size := 10, min_score := 1/4, eviction_threshold := 1/20 }

/-- Claim C4 is false as stated: on `dimPool` the first
`get_next(domain, sticky=true)` call returns proxy 1 via the fallback
path, but the immediately repeated call (no failures in between, same
instant) rejects the sticky entry (score 0 < 0.25) and round-robins to
proxy 0 — not the identical proxy. -/
theorem sticky_repeat_cex :
    (get_next dimPool (some fallbackDomain) true 0).1 = some 1 ∧
    (get_next (get_next dimPool (some fallbackDomain) true 0).2 (some fallbackDomain) true 0).1 =
      some 0 ∧
    ¬ ((get_next (get_next dimPool (some fallbackDomain) true 0).2 (some fallbackDomain) true 0).1 =
        (get_next dimPool (some fallbackDomain) true 0).1) := by
  have h : (get_next dimPool (some fallbackDomain) true 0).1 = some 1 ∧
      (get_next (get_next dimPool (some fallbackDomain) true 0).2 (some fallbackDomain) true 0).1 =
        some 0 := by
    norm_num [get_next, getNextCore, stickyChoice, evictBad, evictKeep, healthyB, getP,
      stickyLookup, stickySet, Proxy.is_available, Proxy.score, dimPool, dimProxy,
      INITIAL_PROXY_SCORE, MAX_SCORE_DECAY, SCORE_DECAY_RATE, DECAY_HOURS_DIVISOR,
      min_def, max_def, List.filter_cons, List.filter_nil, List.isEmpty,
      List.getD_cons_zero, List.getD_cons_succ]
  exact ⟨h.1, h.2, by rw [h.1, h.2]; simp⟩

/-- Claim C4 witness input: a fresh, healthy proxy. -/
def freshProxyC4 : Proxy :=
  { host := "b", port := 2, proto := "http", country := none, source := "public",
    success := 0, fail := 0, last_used := 0, cooldown_until := 0, created_at := 0 }

def stickyDomain : String := "news.example"

/-- Claim C4 witness input: a singleton pool before the first call. -/
def freshPoolC4 : PoolState :=
  { store := [freshProxyC4], proxies := [0], cursor := 0, sticky := [],
    max_size := 10, min_score := 1/4, eviction_threshold := 1/20 }

/-- Claim C4 witness input: the pool state after the first call, with
the sticky binding recorded. -/
def stuckPoolC4 : PoolState :=
  { store := [freshProxyC4], proxies := [0], cursor := 0, sticky := [(stickyDomain, 0)],
    max_size := 10, min_score := 1/4, eviction_threshold := 1/20 }

lemma stickyDomain_truthy : stickyDomain.isEmpty = false := by decide

/-- Claim C4 witness: the amended sticky-repetition statement applied to
a healthy singleton pool. -/
theorem sticky_repeat_witness :
    (get_next stuckPoolC4 (some stickyDomain) true 0).1 = some 0 :=
  sticky_repeat freshPoolC4 stickyDomain 0 0 stuckPoolC4 stickyDomain_truthy
    (by norm_num [get_next, getNextCore, stickyChoice, evictBad, evictKeep, healthyB, getP,
      stickyLookup, stickySet, Proxy.is_available, Proxy.score, freshPoolC4, freshProxyC4,
      stuckPoolC4, stickyDomain_truthy, INITIAL_PROXY_SCORE, MAX_SCORE_DECAY, SCORE_DECAY_RATE,
      DECAY_HOURS_DIVISOR, min_def, max_def, List.filter_cons, List.filter_nil,
      List.isEmpty, List.getD_cons_zero, List.getD_cons_succ])
    (by norm_num [getP, stuckPoolC4, freshProxyC4, Proxy.is_available, List.getD_cons_zero])
    (by norm_num [getP, stuckPoolC4, freshProxyC4, Proxy.score, INITIAL_PROXY_SCORE,
      MAX_SCORE_DECAY, SCORE_DECAY_RATE, DECAY_HOURS_DIVISOR, min_def, max_def,
      List.getD_cons_zero])

/-- A pool operation from claim C3's reachability language:
`add_proxy`, `bulk_add`, `get_next` or `mark_result`. -/
inductive PoolOp where
  | add : Proxy → PoolOp
  | bulk : List Proxy → PoolOp
  | next : Option String → Bool → ℚ → PoolOp
  | mark : Option ℕ → Bool → Bool → ℚ → PoolOp

def applyPoolOp (s : PoolState) : PoolOp → PoolState
  | PoolOp.add p => add_proxy s p
  | PoolOp.bulk ps => bulk_add s ps
  | PoolOp.next d es t => (get_next s d es t).2
  | PoolOp.mark i su so t => mark_result s i su so t

def applyPoolOps : PoolState → List PoolOp → PoolState
  | s, [] => s
  | s, op :: ops => applyPoolOps (applyPoolOp s op) ops

/-- The invariant asserted by claim C3: every proxy referenced by the
sticky map is also in the pool's main list. -/
def stickyInv (s : PoolState) : Prop := ∀ e ∈ s.sticky, e.2 ∈ s.proxies

/-- Claim C3 counterexample input: a fresh proxy that will become the
sticky choice and then be evicted. -/
def seedProxy : Proxy :=
  { host := "c", port := 3, proto := "http", country := none, source := "public",
    success := 0, fail := 0, last_used := 0, cooldown_until := 0, created_at := 0 }

def evictDomain : String := "media.example"

lemma evictDomain_truthy : evictDomain.isEmpty = false := by decide

/-- Claim C3 counterexample input: add a proxy, make it the sticky
choice for a domain, fail it 5 times (score 0, 5 attempts), then call
`get_next` again so that eviction removes it from the list. -/
def opsC3 : List PoolOp :=
  [PoolOp.add seedProxy,
   PoolOp.next (some evictDomain) true 0,
   PoolOp.mark (some 0) false true 0,
   PoolOp.mark (some 0) false true 0,
   PoolOp.mark (some 0) false true 0,
   PoolOp.mark (some 0) false true 0,
   PoolOp.mark (some 0) false true 0,
   PoolOp.next (some evictDomain) true 0]

/-- Claim C3 is false as stated: after the reachable operation sequence
`opsC3` the evicted proxy is gone from the main list but its sticky
entry survives (`_evict_bad` filters only `_proxies`), so the sticky
map references a proxy that is not in the list. -/
theorem sticky_entry_dangles :
    (applyPoolOps (emptyPool 5) opsC3).sticky = [(evictDomain, 0)] ∧
    (applyPoolOps (emptyPool 5) opsC3).proxies = [] ∧
    ¬ stickyInv (applyPoolOps (emptyPool 5) opsC3) := by
  have h : (applyPoolOps (emptyPool 5) opsC3).sticky = [(evictDomain, 0)] ∧
      (applyPoolOps (emptyPool 5) opsC3).proxies = [] := by
    norm_num [applyPoolOps, applyPoolOp, opsC3, add_proxy, rawAppend, emptyPool, seedProxy,
      evictDomain_truthy, get_next, getNextCore, stickyChoice, evictBad, evictKeep, healthyB,
      getP, setP, stickyLookup, stickySet, mark_result, Proxy.mark_fail, Proxy.is_available,
      Proxy.score, SOFT_FAIL_PENALTY_SECONDS, HARD_FAIL_PENALTY_SECONDS,
      MAX_PENALTY_MULTIPLIER, FAILURE_THRESHOLD, INITIAL_PROXY_SCORE, MAX_SCORE_DECAY,
      SCORE_DECAY_RATE, DECAY_HOURS_DIVISOR, min_def, max_def, List.filter_cons,
      List.filter_nil, List.isEmpty, List.getD_cons_zero, List.getD_cons_succ]
  refine ⟨h.1, h.2, ?_⟩
  intro hinv
  have := hinv (evictDomain, 0) (by rw [h.1]; exact List.mem_singleton.mpr rfl)
  rw [h.2] at this
  exact List.not_mem_nil _ this

/-- Claim C3 (amended): `_evict_bad` (run at the top of `get_next`)
filters only the pool's main proxy list and leaves the sticky map and
the proxy store untouched, so eviction does not prune sticky entries
whose proxies it removes; the membership invariant fails in reachable
states. -/
theorem evict_touches_only_list (s : PoolState) (now : ℚ) :
    (evictBad s now).sticky = s.sticky ∧
    (evictBad s now).proxies = s.proxies.filter (evictKeep s now) ∧
    (evictBad s now).store = s.store :=
  ⟨rfl, rfl, rfl⟩

lemma fresh_score_ge (p : Proxy) (now : ℚ) (hs : p.success = 0) (hf : p.fail = 0) :
    1/4 ≤ p.score now := by
  simp only [Proxy.score, hs, hf, INITIAL_PROXY_SCORE, Nat.add_zero, lt_irrefl, if_false]
  have hdec : min MAX_SCORE_DECAY (max 1 (now - p.created_at) / DECAY_HOURS_DIVISOR * SCORE_DECAY_RATE)
      ≤ MAX_SCORE_DECAY := min_le_left _ _
  rw [MAX_SCORE_DECAY] at hdec
  have h1 : (1:ℚ)/4 ≤ min 1 (1/2 - min MAX_SCORE_DECAY (max 1 (now - p.created_at) / DECAY_HOURS_DIVISOR * SCORE_DECAY_RATE)) := by
    rw [MAX_SCORE_DECAY]
    exact le_min (by norm_num) (by linarith)
  calc (1:ℚ)/4 ≤ _ := h1
    _ ≤ _ := le_max_right 0 _

lemma getnext_one_fresh (p : Proxy) (d : String) (t : ℚ)
    (hd : d.isEmpty = false) (hs : p.success = 0) (hf : p.fail = 0)
    (hc : p.cooldown_until ≤ t) :
    get_next { store := [p], proxies := [0], cursor := 0, sticky := [],
               max_size := 200, min_score := 1/4, eviction_threshold := 1/20 }
        (some d) true t =
      (some 0, { store := [p], proxies := [0], cursor := 0, sticky := [(d, 0)],
                 max_size := 200, min_score := 1/4, eviction_threshold := 1/20 }) := by
  have hscore := fresh_score_ge p t hs hf
  have hkeep : evictKeep { store := [p], proxies := [0], cursor := 0, sticky := [], max_size := 200, min_score := 1/4, eviction_threshold := 1/20 } t 0 = true := by
    simp [evictKeep, getP, hs, hf]
  have hav : (p.is_available t) = true := by
    simp [Proxy.is_available, hc]
  have hhealthy : healthyB { store := [p], proxies := [0], cursor := 0, sticky := [], max_size := 200, min_score := 1/4, eviction_threshold := 1/20 } t 0 = true := by
    simp only [healthyB, getP, List.getD_cons_zero, hav, Bool.true_and, decide_eq_true_eq]
    exact hscore
  norm_num [get_next, getNextCore, stickyChoice, evictBad, stickyLookup, stickySet,
    hkeep, hhealthy, hd, List.filter_cons, List.filter_nil, List.isEmpty_cons,
    List.isEmpty_nil, List.getD_cons_zero]

lemma getnext_none_unavailable (s : PoolState) (d : String) (t : ℚ)
    (hkeepall : s.proxies.filter (evictKeep s t) = s.proxies)
    (hunav : ∀ i ∈ s.proxies, (getP s i).is_available t = false)
    (hstick : ∀ j, stickyLookup s.sticky d = some j → (getP s j).is_available t = false) :
    get_next s (some d) true t = (none, s) := by
  have hE : evictBad s t = s := by
    unfold evictBad
    rw [hkeepall]
  have hsc : stickyChoice s (some d) true t = none := by
    cases hl : stickyLookup s.sticky d with
    | none => simp [stickyChoice, hl]
    | some j => simp [stickyChoice, hl, hstick j hl]
  have h0 : s.proxies.filter (healthyB s t) = [] := by
    rw [List.filter_eq_nil_iff]
    intro a ha
    simp [healthyB, hunav a ha]
  have h1 : s.proxies.filter (fun i => (getP s i).is_available t) = [] := by
    rw [List.filter_eq_nil_iff]
    intro a ha
    simp [hunav a ha]
  show getNextCore (evictBad s t) (some d) true t = (none, s)
  rw [hE]
  simp [getNextCore, hsc, h0, h1]

lemma mark_fail_first (p : Proxy) (t : ℚ) (hf : p.fail = 0) (hc : p.cooldown_until ≤ t) :
    (p.mark_fail true t).cooldown_until = t + 20 ∧ (p.mark_fail true t).fail = 1 ∧
    (p.mark_fail true t).success = p.success := by
  refine ⟨?_, by simp [Proxy.mark_fail, hf], by simp [Proxy.mark_fail]⟩
  simp only [Proxy.mark_fail, hf, SOFT_FAIL_PENALTY_SECONDS, MAX_PENALTY_MULTIPLIER,
    FAILURE_THRESHOLD, if_true]
  norm_num
  linarith

lemma c1_run (p : Proxy) (d : String) (times : ℕ → ℚ)
    (hd : d.isEmpty = false) (hs : p.success = 0) (hf : p.fail = 0)
    (hc : p.cooldown_until ≤ times 0)
    (h2 : times 1 < times 0 + 20) (h3 : times 2 < times 0 + 20) :
    requestLoop { store := [p], proxies := [0], cursor := 0, sticky := [], max_size := 200, min_score := 1/4, eviction_threshold := 1/20 } d
        [(times 0, NetOutcome.connError), (times 1, NetOutcome.connError), (times 2, NetOutcome.connError)] =
      (none, { store := [p.mark_fail true (times 0)], proxies := [0], cursor := 0, sticky := [(d, 0)], max_size := 200, min_score := 1/4, eviction_threshold := 1/20 }, 3) := by
  have L1 := getnext_one_fresh p d (times 0) hd hs hf hc
  obtain ⟨hcd, hfl, hsu⟩ := mark_fail_first p (times 0) hf hc
  have hkeep2 : ∀ t : ℚ, evictKeep { store := [p.mark_fail true (times 0)], proxies := [0], cursor := 0, sticky := [(d, 0)], max_size := 200, min_score := 1/4, eviction_threshold := 1/20 } t 0 = true := by
    intro t
    simp [evictKeep, getP, hfl, hsu, hs]
  have hunav2 : ∀ t : ℚ, t < times 0 + 20 → ((p.mark_fail true (times 0)).is_available t) = false := by
    intro t ht
    simp only [Proxy.is_available, hcd, decide_eq_false_iff_not, not_le]
    exact ht
  have L2 : ∀ t : ℚ, t < times 0 + 20 →
      get_next { store := [p.mark_fail true (times 0)], proxies := [0], cursor := 0, sticky := [(d, 0)], max_size := 200, min_score := 1/4, eviction_threshold := 1/20 } (some d) true t =
        (none, { store := [p.mark_fail true (times 0)], proxies := [0], cursor := 0, sticky := [(d, 0)], max_size := 200, min_score := 1/4, eviction_threshold := 1/20 }) := by
    intro t ht
    apply getnext_none_unavailable
    · simp only [List.filter_cons, List.filter_nil, hkeep2 t, eq_self_iff_true, if_true]
    · intro i hi
      have hi0 : i = 0 := by simpa using hi
      subst hi0
      simpa [getP] using hunav2 t ht
    · intro j hj
      have hj0 : (0 : ℕ) = j := by simpa [stickyLookup] using hj
      subst hj0
      simpa [getP] using hunav2 t ht
  simp only [requestLoop, request_once, L1, L2 (times 1) h2, L2 (times 2) h3, mark_result,
    setP, getP, List.getD_cons_zero, List.set_cons_zero, Bool.false_eq_true, if_false]

/-- The single-proxy pool of claim C1 with the default `ProxyPool`
parameters. -/
def poolOne (p : Proxy) : PoolState :=
  { store := [p], proxies := [0], cursor := 0, sticky := [],
    max_size := 200, min_score := 1/4, eviction_threshold := 1/20 }

/-- The session of claim C1: `max_retries_per_request = 3` over a pool
containing exactly one proxy. -/
def sessC1 (p : Proxy) : StealthSession :=
  { pool := poolOne p, timeout := 15, max_retries := 3, delay_min := 1, delay_max := 4 }

/-- Claim C1 (amended): with `max_retries_per_request = 3`, a single
fresh proxy, and every network call raising a connection error,
`request` returns an absent result after exactly 3 attempts — but the
proxy's fail counter increases by exactly 1, not 3: the first failure
puts the proxy into a 20-second soft-fail cooldown, so the remaining
attempts (all within that window under the sub-20-second attempt
pacing) obtain no proxy from the pool and mark nothing. -/
theorem retry_exhaustion (p : Proxy) (d : String) (times : ℕ → ℚ)
    (hd : d.isEmpty = false) (hs : p.success = 0) (hf : p.fail = 0)
    (hc : p.cooldown_until ≤ times 0)
    (h2 : times 1 < times 0 + 20) (h3 : times 2 < times 0 + 20) :
    ((sessC1 p).request d times (fun _ => NetOutcome.connError)).1 = none ∧
    ((sessC1 p).request d times (fun _ => NetOutcome.connError)).2.2 = 3 ∧
    (getP ((sessC1 p).request d times (fun _ => NetOutcome.connError)).2.1 0).fail = p.fail + 1 := by
  have hreq : (sessC1 p).request d times (fun _ => NetOutcome.connError) =
      requestLoop { store := [p], proxies := [0], cursor := 0, sticky := [], max_size := 200, min_score := 1/4, eviction_threshold := 1/20 } d
        [(times 0, NetOutcome.connError), (times 1, NetOutcome.connError), (times 2, NetOutcome.connError)] := by
    have hbudget : attemptsBudget 3 = 3 := rfl
    norm_num [StealthSession.request, sessC1, poolOne, hbudget, List.range_succ]
  rw [hreq, c1_run p d times hd hs hf hc h2 h3]
  refine ⟨rfl, rfl, ?_⟩
  simp [getP, Proxy.mark_fail]

/-- Claim C1 counterexample input: the fresh single proxy. -/
def soloProxy : Proxy :=
  { host := "e", port := 5, proto := "http", country := none, source := "public",
    success := 0, fail := 0, last_used := 0, cooldown_until := 0, created_at := 0 }

def retryDomain : String := "api.example"

lemma retryDomain_truthy : retryDomain.isEmpty = false := by decide

/-- Claim C1 counterexample input: attempt times 0, 1, 2 seconds. -/
def timesC1 : ℕ → ℚ := fun n => (n : ℚ)

/-- Claim C1 is false as stated: at attempt times 0, 1, 2 seconds (well
within the attempt-level jitter and per-domain pacing bounds), the
session returns an absent result after exactly 3 attempts, but the
proxy's fail counter ends at 1, not at the claimed `soloProxy.fail + 3`:
attempts 2 and 3 find the only proxy in its 20-second cooldown and
obtain no proxy, so no further failures are recorded. -/
theorem retry_exhaustion_cex :
    ((sessC1 soloProxy).request retryDomain timesC1 (fun _ => NetOutcome.connError)).1 = none ∧
    ((sessC1 soloProxy).request retryDomain timesC1 (fun _ => NetOutcome.connError)).2.2 = 3 ∧
    (getP ((sessC1 soloProxy).request retryDomain timesC1 (fun _ => NetOutcome.connError)).2.1 0).fail = 1 ∧
    ¬ ((getP ((sessC1 soloProxy).request retryDomain timesC1 (fun _ => NetOutcome.connError)).2.1 0).fail = soloProxy.fail + 3) := by
  have hreq : (sessC1 soloProxy).request retryDomain timesC1 (fun _ => NetOutcome.connError) =
      requestLoop { store := [soloProxy], proxies := [0], cursor := 0, sticky := [], max_size := 200, min_score := 1/4, eviction_threshold := 1/20 } retryDomain
        [(timesC1 0, NetOutcome.connError), (timesC1 1, NetOutcome.connError), (timesC1 2, NetOutcome.connError)] := by
    have hbudget : attemptsBudget 3 = 3 := rfl
    norm_num [StealthSession.request, sessC1, poolOne, hbudget, List.range_succ]
  have hrun := c1_run soloProxy retryDomain timesC1 retryDomain_truthy rfl rfl
    (by norm_num [soloProxy, timesC1]) (by norm_num [timesC1]) (by norm_num [timesC1])
  rw [hreq, hrun]
  refine ⟨rfl, rfl, ?_, ?_⟩
  · simp [getP, Proxy.mark_fail, soloProxy]
  · simp [getP, Proxy.mark_fail, soloProxy]

/-- Claim C1 witness: the amended statement applied to the concrete
fresh proxy with attempt times 0, 1, 2. -/
theorem retry_exhaustion_witness :
    ((sessC1 soloProxy).request retryDomain timesC1 (fun _ => NetOutcome.connError)).1 = none ∧
    ((sessC1 soloProxy).request retryDomain timesC1 (fun _ => NetOutcome.connError)).2.2 = 3 ∧
    (getP ((sessC1 soloProxy).request retryDomain timesC1 (fun _ => NetOutcome.connError)).2.1 0).fail = soloProxy.fail + 1 :=
  retry_exhaustion soloProxy retryDomain timesC1 retryDomain_truthy rfl rfl
    (by norm_num [soloProxy, timesC1]) (by norm_num [timesC1]) (by norm_num [timesC1])
